import Mathlib

/-!
Shallow embedding of the rain/precipitation prediction service in
`app/main.py` (FastAPI application).

Modelling decisions:

* A Gregorian date is a triple of naturals.  `datetime.strptime(s, "%Y-%m-%d")`
  is modelled by `parseDate`: CPython's `_strptime` compiles the format to the
  regex `(?P<Y>\d\d\d\d)-(?P<m>1[0-2]|0[1-9]|[1-9])-(?P<d>3[01]|[12]\d|0[1-9]|[1-9])`,
  requires the whole string to be consumed, and then the `datetime` constructor
  validates the calendar date (year in 1..9999, day within the month).  Because
  the separators are literal hyphens and the captured groups are pure digit
  strings, a successful parse is exactly: split on `-` into three all-digit
  groups of lengths 4 / 1-2 / 1-2 whose values form a valid calendar date.
  (The model restricts digits to ASCII; CPython's `\d` also accepts other
  Unicode decimal digits.)

* `input_date + timedelta(days=k)` is modelled by `addDays`, k successive
  calendar-day increments.  `datetime` supports years 1..9999 only; an addition
  that leaves this range raises `OverflowError`.  That exception is *not* a
  `ValueError`, so the handlers do not catch it: the model returns the
  `overflowCrash` outcome, which the web framework surfaces as an HTTP 500.

* `strftime("%Y-%m-%d")` is modelled by `formatDate`, zero-padding the year to
  four digits and month/day to two.

* The model objects are opaque, externally produced artifacts and the feature
  row passed to them is a constant all-zero frame, independent of the request.
  A model invocation is therefore modelled by its outcome on that fixed frame:
  `some q` when `float(model.predict...(X)...)` returns the value `q`, `none`
  when the guarded call raises.  Real-valued results are modelled as rationals.

* Python's `round(x, 2)` (round-half-to-even at two decimals) is `pyRound2`,
  and `max(0.0, x)` is `max 0 x`.

* The metadata loading block (lines 42-50) is `rain_threshold`, a function of
  the observable state of the metadata file (`MetaFile`).  `float(v)` on a JSON
  value is `pyFloat`; for strings it parses optionally signed decimal literals
  with an optional exponent (Python additionally accepts `inf`/`nan` and digit
  underscores, which a rational-valued model does not represent).
-/

/-- A calendar date, as carried by `datetime.datetime` (time fields are unused
by the program). -/
structure Date where
  year : Nat
  month : Nat
  day : Nat
deriving DecidableEq

/-- Proleptic Gregorian leap-year rule, as used by `datetime`. -/
def isLeapYear (y : Nat) : Bool :=
  (y % 4 == 0 && y % 100 != 0) || y % 400 == 0

/-- Number of days in a month of a given year. -/
def daysInMonth (y m : Nat) : Nat :=
  if m == 2 then (if isLeapYear y then 29 else 28)
  else if m == 4 || m == 6 || m == 9 || m == 11 then 30
  else 31

/-- Numeric value of a string of decimal digits (what `int` does to the
captured groups in `_strptime`). -/
def natOfDigits (cs : List Char) : Nat :=
  cs.foldl (fun n c => 10 * n + (c.toNat - 48)) 0

/-- Model of `datetime.strptime(s, "%Y-%m-%d")` followed by construction of the
`datetime` object: four year digits, one or two month digits, one or two day
digits (zero padding optional, per CPython's regex), hyphen separators, whole
string consumed, and the values must form a valid calendar date with year at
least 1.  Returns `none` exactly when the code raises `ValueError`. -/
def parseDate (s : String) : Option Date :=
  match s.data.splitOn '-' with
  | [ys, ms, ds] =>
    if ys.length == 4 && ys.all Char.isDigit
        && (ms.length == 1 || ms.length == 2) && ms.all Char.isDigit
        && (ds.length == 1 || ds.length == 2) && ds.all Char.isDigit then
      let y := natOfDigits ys
      let m := natOfDigits ms
      let d := natOfDigits ds
      if 1 ≤ y ∧ 1 ≤ m ∧ m ≤ 12 ∧ 1 ≤ d ∧ d ≤ daysInMonth y m then
        some ⟨y, m, d⟩
      else none
    else none
  | _ => none

/-- Spec-side definition (from the claim's words, not from the code): a
strict-format `YYYY-MM-DD` date string — zero-padded four-digit year,
two-digit month, two-digit day, valid calendar date. -/
def strictParseDate (s : String) : Option Date :=
  match s.data.splitOn '-' with
  | [ys, ms, ds] =>
    if ys.length == 4 && ys.all Char.isDigit
        && ms.length == 2 && ms.all Char.isDigit
        && ds.length == 2 && ds.all Char.isDigit then
      let y := natOfDigits ys
      let m := natOfDigits ms
      let d := natOfDigits ds
      if 1 ≤ y ∧ 1 ≤ m ∧ m ≤ 12 ∧ 1 ≤ d ∧ d ≤ daysInMonth y m then
        some ⟨y, m, d⟩
      else none
    else none
  | _ => none

/-- The next calendar day; `none` past `datetime.max` (9999-12-31). -/
def nextDay (d : Date) : Option Date :=
  if d.day < daysInMonth d.year d.month then some ⟨d.year, d.month, d.day + 1⟩
  else if d.month < 12 then some ⟨d.year, d.month + 1, 1⟩
  else if d.year < 9999 then some ⟨d.year + 1, 1, 1⟩
  else none

/-- Model of `dt + timedelta(days=k)`: advance the calendar `k` days; `none`
models the `OverflowError` raised when the result would leave years 1..9999. -/
def addDays : Date → Nat → Option Date
  | d, 0 => some d
  | d, k + 1 =>
    match nextDay d with
    | some d2 => addDays d2 k
    | none => none

/-- The ASCII digit character for `n < 10`. -/
def digitChar (n : Nat) : Char :=
  Char.ofNat (48 + n)

/-- Two-digit zero-padded decimal rendering (`%m`, `%d`). -/
def pad2 (n : Nat) : String :=
  ⟨[digitChar (n / 10 % 10), digitChar (n % 10)]⟩

/-- Four-digit zero-padded decimal rendering (`%Y`). -/
def pad4 (n : Nat) : String :=
  ⟨[digitChar (n / 1000 % 10), digitChar (n / 100 % 10),
    digitChar (n / 10 % 10), digitChar (n % 10)]⟩

/-- Model of `dt.strftime("%Y-%m-%d")`. -/
def formatDate (d : Date) : String :=
  pad4 d.year ++ "-" ++ pad2 d.month ++ "-" ++ pad2 d.day

/-- Round to the nearest integer, ties to even — the rounding mode of Python's
built-in `round`. -/
def roundHalfEven (x : ℚ) : ℤ :=
  if x - ⌊x⌋ < 1 / 2 then ⌊x⌋
  else if (1 : ℚ) / 2 < x - ⌊x⌋ then ⌊x⌋ + 1
  else if ⌊x⌋ % 2 = 0 then ⌊x⌋ else ⌊x⌋ + 1

/-- Model of Python's `round(x, 2)`. -/
def pyRound2 (x : ℚ) : ℚ :=
  (roundHalfEven (x * 100) : ℚ) / 100

/-- Successful JSON body of `/predict/rain/` (the nested `prediction` object is
flattened into the two prediction fields). -/
structure RainBody where
  input_date : String
  prediction_date : String
  will_rain : Bool
deriving DecidableEq

/-- Successful JSON body of `/predict/precipitation/fall/`. -/
structure PrecipBody where
  input_date : String
  start_date : String
  end_date : String
  precipitation_fall : ℚ
deriving DecidableEq

/-- Outcome of a request handler.  `badRequest` is the `HTTPException` with
status 400, `predictionError` the `HTTPException` with status 500, and
`overflowCrash` an uncaught `OverflowError` from date arithmetic, which the
framework surfaces as a 500 response. -/
inductive HResponse (β : Type) where
  | success (body : β)
  | badRequest
  | predictionError
  | overflowCrash
deriving DecidableEq

/-- HTTP status code of an outcome. -/
def HResponse.status {β : Type} : HResponse β → Nat
  | .success _ => 200
  | .badRequest => 400
  | .predictionError => 500
  | .overflowCrash => 500

/-- Handler of `GET /predict/rain/` (lines 78-96).  `proba` is the outcome of
`float(rain_model.predict_proba(X)[:, 1][0])` on the fixed all-zero feature
frame (`none` models the guarded call raising), `threshold` is the loaded
`rain_threshold`.  Steps, in source order: parse the date (400 on
`ValueError`), add 7 days (uncaught overflow), invoke the model (500 on any
exception), compare against the threshold and build the body. -/
def predict_rain (proba : Option ℚ) (threshold : ℚ) (date : String) :
    HResponse RainBody :=
  match parseDate date with
  | none => .badRequest
  | some input_date =>
    match addDays input_date 7 with
    | none => .overflowCrash
    | some pred_date =>
      match proba with
      | none => .predictionError
      | some p => .success ⟨date, formatDate pred_date, decide (threshold ≤ p)⟩

/-- Handler of `GET /predict/precipitation/fall/` (lines 98-121).  `precip` is
the outcome of `float(precip_model.predict(X)[0])` on the fixed all-zero
feature frame.  Steps, in source order: parse the date (400 on `ValueError`),
compute the [+1, +3] day window (uncaught overflow), invoke the model (500 on
any exception), clamp the value at 0 and round to two decimals. -/
def predict_precip (precip : Option ℚ) (date : String) : HResponse PrecipBody :=
  match parseDate date with
  | none => .badRequest
  | some input_date =>
    match addDays input_date 1, addDays input_date 3 with
    | some start_date, some end_date =>
      match precip with
      | none => .predictionError
      | some q =>
        .success ⟨date, formatDate start_date, formatDate end_date,
          pyRound2 (max 0 q)⟩
    | _, _ => .overflowCrash

/-- JSON values, as produced by `json.load` (numbers as rationals; the JSON
extensions `Infinity`/`NaN` are outside the rational model). -/
inductive JsonValue where
  | null
  | bool (b : Bool)
  | num (q : ℚ)
  | str (s : String)
  | arr (xs : List JsonValue)
  | obj (entries : List (String × JsonValue))

/-- Strip leading and trailing whitespace, as Python's `float` does to a
string argument. -/
def stripSpaces (cs : List Char) : List Char :=
  ((cs.dropWhile Char.isWhitespace).reverse.dropWhile Char.isWhitespace).reverse

/-- Unsigned decimal literal: `digits`, `digits.digits`, `digits.` or
`.digits`. -/
def parseUnsignedFloat (cs : List Char) : Option ℚ :=
  match cs.splitOn '.' with
  | [ip] =>
    if !ip.isEmpty && ip.all Char.isDigit then some (natOfDigits ip) else none
  | [ip, fp] =>
    if ip.all Char.isDigit && fp.all Char.isDigit
        && (!ip.isEmpty || !fp.isEmpty) then
      some ((natOfDigits ip : ℚ) + (natOfDigits fp : ℚ) / 10 ^ fp.length)
    else none
  | _ => none

/-- Optionally signed mantissa. -/
def parseMantissa (cs : List Char) : Option ℚ :=
  match cs with
  | '+' :: rest => parseUnsignedFloat rest
  | '-' :: rest => (parseUnsignedFloat rest).map (fun q => -q)
  | rest => parseUnsignedFloat rest

/-- Optionally signed integer exponent. -/
def parseExp (cs : List Char) : Option ℤ :=
  match cs with
  | '+' :: ds =>
    if !ds.isEmpty && ds.all Char.isDigit then some (natOfDigits ds) else none
  | '-' :: ds =>
    if !ds.isEmpty && ds.all Char.isDigit then some (-(natOfDigits ds : ℤ))
    else none
  | ds =>
    if !ds.isEmpty && ds.all Char.isDigit then some (natOfDigits ds) else none

/-- Model of Python's `float` applied to a string: strip whitespace, lowercase,
then an optionally signed decimal literal with optional exponent.  `none`
models `ValueError`. -/
def pyFloatOfString (s : String) : Option ℚ :=
  match ((stripSpaces s.data).map Char.toLower).splitOn 'e' with
  | [m] => parseMantissa m
  | [m, ex] => do
    let mq ← parseMantissa m
    let e ← parseExp ex
    pure (mq * (10 : ℚ) ^ e)
  | _ => none

/-- Model of Python's `float` applied to a JSON value.  Numbers and booleans
convert; strings go through the literal parser; `null`, arrays and objects
raise `TypeError` (`none`). -/
def pyFloat : JsonValue → Option ℚ
  | .num q => some q
  | .bool b => some (if b then 1 else 0)
  | .str s => pyFloatOfString s
  | _ => none

/-- Lookup in a JSON object with Python `dict` semantics: on duplicate keys
the last occurrence wins. -/
def lookupLast (k : String) (es : List (String × JsonValue)) :
    Option JsonValue :=
  (es.reverse.find? (fun p => p.1 == k)).map (fun p => p.2)

/-- Observable state of the optional metadata file at startup. -/
inductive MetaFile where
  | absent
  | unreadable
  | malformed
  | parsed (j : JsonValue)

/-- Model of the metadata-loading block (lines 42-50).  The default 0.5 stands;
if the path exists, the file reads, and `json.load` yields a `dict` containing
the key `"threshold"`, the threshold becomes `float(meta1["threshold"])`.  Any
exception on the way — unreadable file, malformed JSON, or a `float` conversion
failure — is swallowed by the bare `except`, leaving the default. -/
def rain_threshold (mf : MetaFile) : ℚ :=
  match mf with
  | .parsed (.obj es) =>
    match lookupLast "threshold" es with
    | some v =>
      match pyFloat v with
      | some q => q
      | none => 0.5
    | none => 0.5
  | _ => 0.5

/-- Process-wide state established at startup: the two loaded model objects
(abstracted to their outcomes on the fixed all-zero feature frame) and the
loaded threshold. -/
structure ServerState where
  rain_model : Option ℚ
  precip_model : Option ℚ
  threshold : ℚ
deriving DecidableEq

/-- State-passing form of the rain route: the handler body contains no
assignment to any module-level name (no `global` statement), so the state is
returned unchanged. -/
def predict_rain_route (st : ServerState) (date : String) :
    HResponse RainBody × ServerState :=
  (predict_rain st.rain_model st.threshold date, st)

/-- State-passing form of the precipitation route. -/
def predict_precip_route (st : ServerState) (date : String) :
    HResponse PrecipBody × ServerState :=
  (predict_precip st.precip_model date, st)

theorem addDays_prefix (k j : Nat) :
    ∀ (d e : Date), addDays d (k + j) = some e → ∃ m, addDays d k = some m := by
  induction k with
  | zero => intro d _ _; exact ⟨d, rfl⟩
  | succ n ih =>
    intro d e h
    rw [Nat.succ_add] at h
    cases hn : nextDay d with
    | none => rw [addDays, hn] at h; exact absurd h (by simp)
    | some d2 =>
      rw [addDays, hn] at h
      obtain ⟨m, hm⟩ := ih d2 e h
      exact ⟨m, by rw [addDays, hn]; exact hm⟩

theorem roundHalfEven_nonneg (x : ℚ) (hx : 0 ≤ x) : 0 ≤ roundHalfEven x := by
  have h0 : (0 : ℤ) ≤ ⌊x⌋ := Int.floor_nonneg.mpr hx
  rw [roundHalfEven]
  split_ifs <;> omega

theorem pyRound2_nonneg (x : ℚ) (hx : 0 ≤ x) : 0 ≤ pyRound2 x := by
  rw [pyRound2]
  have h := roundHalfEven_nonneg (x * 100) (by positivity)
  apply div_nonneg _ (by norm_num)
  exact_mod_cast h

/-- Claim C1 counterexample: `9999-12-31` is a valid `YYYY-MM-DD` date (even in
the strict zero-padded sense), yet the rain endpoint does not return 200 on it:
`input_date + timedelta(days=7)` raises an uncaught `OverflowError` and the
response is a 500, for any model outcome and threshold. -/
theorem rain_overflow_counterexample :
    strictParseDate "9999-12-31" = some ⟨9999, 12, 31⟩ ∧
    (predict_rain (some 1) 0 "9999-12-31").status = 500 :=
  ⟨by decide, by decide⟩

/-- Claim C1 (amended): for every valid `YYYY-MM-DD` input whose date plus 7
days still fits in `datetime`'s year range 1..9999, the rain endpoint returns a
200 response whose prediction date is the input date plus exactly 7 days,
formatted as `YYYY-MM-DD`.  (For the remaining valid dates, 9999-12-25 through
9999-12-31, the date addition overflows; see the counterexample.) -/
theorem predict_rain_date_plus_seven :
    ∀ (s : String) (d pd : Date) (p t : ℚ),
      parseDate s = some d → addDays d 7 = some pd →
      predict_rain (some p) t s = .success ⟨s, formatDate pd, decide (t ≤ p)⟩ := by
  intro s d pd p t hp ha
  simp only [predict_rain, hp, ha]

unseal Rat.mul Rat.inv Rat.add Rat.sub Rat.ofScientific in
/-- Witness for the amended claim C1 at a concrete leap-year input. -/
theorem predict_rain_date_plus_seven_witness :
    predict_rain (some (7/10)) (1/2) "2024-02-27" =
      .success ⟨"2024-02-27", "2024-03-05", true⟩ :=
  (predict_rain_date_plus_seven "2024-02-27" ⟨2024, 2, 27⟩ ⟨2024, 3, 5⟩ (7/10) (1/2)
    (by decide) (by decide)).trans (by decide)

/-- Claim C2 counterexample: `9999-12-30` is a valid (strict) `YYYY-MM-DD`
date, yet the precipitation endpoint does not return its window: computing
`input + timedelta(days=3)` raises an uncaught `OverflowError` and the response
is a 500. -/
theorem precip_overflow_counterexample :
    strictParseDate "9999-12-30" = some ⟨9999, 12, 30⟩ ∧
    (predict_precip (some 1) "9999-12-30").status = 500 :=
  ⟨by decide, by decide⟩

/-- Claim C2 (amended): for every valid `YYYY-MM-DD` input whose date plus 3
days still fits in years 1..9999, the precipitation endpoint returns a 200
response whose window is [input + 1 day, input + 3 days], each formatted as
`YYYY-MM-DD`.  (For the remaining valid dates, 9999-12-29 through 9999-12-31,
the date addition overflows; see the counterexample.) -/
theorem predict_precip_window :
    ∀ (s : String) (d d1 d3 : Date) (q : ℚ),
      parseDate s = some d → addDays d 1 = some d1 → addDays d 3 = some d3 →
      predict_precip (some q) s =
        .success ⟨s, formatDate d1, formatDate d3, pyRound2 (max 0 q)⟩ := by
  intro s d d1 d3 q hp h1 h3
  simp only [predict_precip, hp, h1, h3]

unseal Rat.mul Rat.inv Rat.add Rat.sub Rat.ofScientific in
/-- Witness for the amended claim C2 across a month boundary in a leap year. -/
theorem predict_precip_window_witness :
    predict_precip (some 2) "2024-02-27" =
      .success ⟨"2024-02-27", "2024-02-28", "2024-03-01", 2⟩ :=
  (predict_precip_window "2024-02-27" ⟨2024, 2, 27⟩ ⟨2024, 2, 28⟩ ⟨2024, 3, 1⟩ 2
    (by decide) (by decide) (by decide)).trans (by decide)

/-- Claim C3 counterexample: `2024-1-5` is not a strict-format `YYYY-MM-DD`
string (month and day are not zero-padded), yet CPython's
`strptime("%Y-%m-%d")` accepts it, so neither endpoint rejects it with 400:
with a succeeding model both return 200. -/
theorem strict_format_counterexample :
    strictParseDate "2024-1-5" = none ∧
    parseDate "2024-1-5" = some ⟨2024, 1, 5⟩ ∧
    (predict_rain (some 1) 0 "2024-1-5").status = 200 ∧
    (predict_precip (some 1) "2024-1-5").status = 200 :=
  ⟨by decide, by decide, by decide, by decide⟩

/-- Claim C3 (amended): both endpoints return 400 exactly for the input
strings rejected by CPython `strptime`'s `%Y-%m-%d` parse — four year digits,
one- or two-digit month and day (zero padding optional) forming a valid
calendar date in years 1..9999.  Well-formed inputs never yield 400. -/
theorem bad_request_iff_malformed :
    ∀ (s : String) (mr mp : Option ℚ) (t : ℚ),
      ((predict_rain mr t s).status = 400 ↔ parseDate s = none) ∧
      ((predict_precip mp s).status = 400 ↔ parseDate s = none) := by
  intro s mr mp t
  constructor
  · cases hp : parseDate s with
    | none => simp [predict_rain, hp, HResponse.status]
    | some d =>
      simp only [predict_rain, hp]
      cases ha : addDays d 7 with
      | none => simp [HResponse.status]
      | some pd =>
        cases mr with
        | none => simp [HResponse.status]
        | some p => simp [HResponse.status]
  · cases hp : parseDate s with
    | none => simp [predict_precip, hp, HResponse.status]
    | some d =>
      simp only [predict_precip, hp]
      cases h1 : addDays d 1 <;> cases h3 : addDays d 3 <;>
        cases mp <;> simp [HResponse.status]

/-- Claim C4: whatever value the regressor returns, the `precipitation_fall`
field of a successful precipitation response is never negative, because the
raw value is clamped by `max(0.0, ...)` before rounding. -/
theorem precipitation_fall_nonneg :
    ∀ (q : ℚ) (s : String) (b : PrecipBody),
      predict_precip (some q) s = .success b → 0 ≤ b.precipitation_fall := by
  intro q s b h
  cases hp : parseDate s with
  | none => simp [predict_precip, hp] at h
  | some d =>
    simp only [predict_precip, hp] at h
    cases h1 : addDays d 1 <;> cases h3 : addDays d 3 <;> simp [h1, h3] at h
    subst h
    exact pyRound2_nonneg _ (le_max_left 0 q)

unseal Rat.mul Rat.inv Rat.add Rat.sub Rat.ofScientific in
/-- Witness for claim C4 at a negative regressor output: the response field is
clamped to 0. -/
theorem precipitation_fall_nonneg_witness :
    predict_precip (some (-3)) "2023-11-04" =
      .success ⟨"2023-11-04", "2023-11-05", "2023-11-07", 0⟩ ∧
    0 ≤ (PrecipBody.mk "2023-11-04" "2023-11-05" "2023-11-07" 0).precipitation_fall :=
  ⟨by decide, precipitation_fall_nonneg (-3) "2023-11-04" _ (by decide)⟩

/-- Claim C5 counterexample: on the valid date `9999-12-25` with a succeeding
model, the rain endpoint does not return 200: the `+7 days` arithmetic, which
runs before the prediction call, raises an uncaught `OverflowError` and the
response is a 500. -/
theorem overflow_status_counterexample :
    parseDate "9999-12-25" = some ⟨9999, 12, 25⟩ ∧
    (predict_rain (some 1) 0 "9999-12-25").status = 500 :=
  ⟨by decide, by decide⟩

/-- Claim C5 (amended): on a valid date, if the model's prediction call raises
any exception the endpoint responds 500 (also when the date arithmetic
overflows first, since that uncaught error is surfaced as a 500 as well); if
the prediction succeeds and the offset dates stay within years 1..9999, the
endpoint returns 200 with a body carrying the input date and the prediction
fields. -/
theorem response_codes :
    ∀ (s : String) (d : Date) (t p : ℚ),
      parseDate s = some d →
      ((predict_rain none t s).status = 500 ∧
        (predict_precip none s).status = 500) ∧
      (∀ pd, addDays d 7 = some pd →
        ∃ b, predict_rain (some p) t s = .success b ∧ b.input_date = s) ∧
      (∀ e3, addDays d 3 = some e3 →
        ∃ b, predict_precip (some p) s = .success b ∧ b.input_date = s) := by
  intro s d t p hp
  refine ⟨⟨?_, ?_⟩, ?_, ?_⟩
  · simp only [predict_rain, hp]
    cases ha : addDays d 7 <;> simp [HResponse.status]
  · simp only [predict_precip, hp]
    cases h1 : addDays d 1 <;> cases h3 : addDays d 3 <;> simp [HResponse.status]
  · intro pd ha
    exact ⟨⟨s, formatDate pd, decide (t ≤ p)⟩, by simp only [predict_rain, hp, ha], rfl⟩
  · intro e3 h3
    obtain ⟨m, h1⟩ := addDays_prefix 1 2 d e3 h3
    exact ⟨⟨s, formatDate m, formatDate e3, pyRound2 (max 0 p)⟩,
      by simp only [predict_precip, hp, h1, h3], rfl⟩

/-- Witness for the amended claim C5 at a concrete date, exercising both the
failing-model 500 cases and the succeeding-model 200 cases. -/
theorem response_codes_witness :
    ((predict_rain none (1/2) "2024-05-10").status = 500 ∧
      (predict_precip none "2024-05-10").status = 500) ∧
    (∃ b, predict_rain (some (7/10)) (1/2) "2024-05-10" = .success b ∧
      b.input_date = "2024-05-10") ∧
    (∃ b, predict_precip (some (7/10)) "2024-05-10" = .success b ∧
      b.input_date = "2024-05-10") :=
  ⟨(response_codes "2024-05-10" ⟨2024, 5, 10⟩ (1/2) (7/10) (by decide)).1,
    (response_codes "2024-05-10" ⟨2024, 5, 10⟩ (1/2) (7/10) (by decide)).2.1
      ⟨2024, 5, 17⟩ (by decide),
    (response_codes "2024-05-10" ⟨2024, 5, 10⟩ (1/2) (7/10) (by decide)).2.2
      ⟨2024, 5, 13⟩ (by decide)⟩

/-- Claim C6: in every successful rain response the `will_rain` field is the
boolean `proba >= rain_threshold`: it is `true` exactly when the positive-class
probability reaches the threshold. -/
theorem will_rain_threshold_comparison :
    ∀ (p t : ℚ) (s : String) (b : RainBody),
      predict_rain (some p) t s = .success b → (b.will_rain = true ↔ t ≤ p) := by
  intro p t s b h
  cases hp : parseDate s with
  | none => simp [predict_rain, hp] at h
  | some d =>
    simp only [predict_rain, hp] at h
    cases ha : addDays d 7 <;> simp [ha] at h
    subst h
    exact decide_eq_true_iff

unseal Rat.mul Rat.inv Rat.add Rat.sub Rat.ofScientific in
/-- Witness for claim C6 at the boundary: probability equal to the threshold
yields `will_rain = true`. -/
theorem will_rain_threshold_comparison_witness :
    predict_rain (some (7/10)) (7/10) "2020-06-15" =
      .success ⟨"2020-06-15", "2020-06-22", true⟩ ∧
    ((RainBody.mk "2020-06-15" "2020-06-22" true).will_rain = true ↔
      (7/10 : ℚ) ≤ 7/10) :=
  ⟨by decide, will_rain_threshold_comparison (7/10) (7/10) "2020-06-15" _ (by decide)⟩

unseal Rat.mul Rat.inv Rat.add Rat.sub Rat.ofScientific in
/-- Claim C7 counterexample: a metadata file that exists and parses to a dict
containing the key `"threshold"` — with a value `float` cannot convert (here
JSON `null`) — still leaves the default 0.5, a case outside the claim's
dichotomy (the claim allows the default only for a missing, unreadable,
malformed, or key-lacking file). -/
theorem threshold_unconvertible_counterexample :
    rain_threshold (.parsed (.obj [("threshold", JsonValue.null)])) = 0.5 ∧
    lookupLast "threshold" [("threshold", JsonValue.null)] = some JsonValue.null ∧
    pyFloat JsonValue.null = none :=
  ⟨by decide, rfl, rfl⟩

/-- Claim C7 (amended): the decision threshold is `float` of the `"threshold"`
value of the metadata JSON document whenever the file exists, parses to a dict
containing that key, and the value converts to a float; in every other case —
file missing, unreadable, malformed JSON, a non-dict document, a missing key,
or a value `float` cannot convert — it defaults to 0.5. -/
theorem rain_threshold_spec :
    ∀ (mf : MetaFile),
      (∀ es v q, mf = .parsed (.obj es) → lookupLast "threshold" es = some v →
        pyFloat v = some q → rain_threshold mf = q) ∧
      ((¬ ∃ es v q, mf = .parsed (.obj es) ∧
          lookupLast "threshold" es = some v ∧ pyFloat v = some q) →
        rain_threshold mf = 0.5) := by
  intro mf
  constructor
  · intro es v q hmf hl hf
    subst hmf
    simp only [rain_threshold, hl, hf]
  · intro hno
    cases mf with
    | absent => rfl
    | unreadable => rfl
    | malformed => rfl
    | parsed j =>
      cases j with
      | null => rfl
      | bool b => rfl
      | num q => rfl
      | str s => rfl
      | arr xs => rfl
      | obj es =>
        simp only [rain_threshold]
        cases hl : lookupLast "threshold" es with
        | none => rfl
        | some v =>
          cases hf : pyFloat v with
          | none => simp [hf]
          | some q => exact absurd ⟨es, v, q, rfl, hl, hf⟩ hno

/-- Witness for the amended claim C7: a metadata document with a numeric
threshold value sets the threshold to that value. -/
theorem rain_threshold_spec_witness :
    rain_threshold (.parsed (.obj [("threshold", JsonValue.num (7/10))])) = 7/10 :=
  (rain_threshold_spec _).1 [("threshold", JsonValue.num (7/10))]
    (JsonValue.num (7/10)) (7/10) rfl rfl rfl

/-- Claim C8: with the loaded models and threshold fixed, both handlers are
deterministic — two evaluations on the same input date produce identical
responses. -/
theorem handlers_deterministic :
    ∀ (m mp : Option ℚ) (t : ℚ) (s : String)
      (r1 r2 : HResponse RainBody) (q1 q2 : HResponse PrecipBody),
      r1 = predict_rain m t s → r2 = predict_rain m t s →
      q1 = predict_precip mp s → q2 = predict_precip mp s →
      r1 = r2 ∧ q1 = q2 := by
  intro m mp t s r1 r2 q1 q2 h1 h2 h3 h4
  subst h1; subst h2; subst h3; subst h4
  exact ⟨rfl, rfl⟩

/-- Witness for claim C8 at a concrete state and date. -/
theorem handlers_deterministic_witness :
    predict_rain (some 1) 0 "2021-01-01" = predict_rain (some 1) 0 "2021-01-01" ∧
    predict_precip (some 1) "2021-01-01" = predict_precip (some 1) "2021-01-01" :=
  handlers_deterministic (some 1) (some 1) 0 "2021-01-01" _ _ _ _ rfl rfl rfl rfl

/-- Claim C9: the request handlers do not mutate the process-wide state — the
loaded rain model, precipitation model and threshold after any call are the
startup values.  In the state-passing translation both routes return the state
unchanged (the Python handler bodies contain no assignment to module-level
names). -/
theorem routes_read_only :
    ∀ (st : ServerState) (s1 s2 : String),
      (predict_rain_route st s1).2 = st ∧ (predict_precip_route st s2).2 = st :=
  fun _ _ _ => ⟨rfl, rfl⟩

/-- Claim C10: in every successful precipitation response, `precipitation_fall`
equals the regressor output clamped below at 0 and then rounded to two decimal
places (Python `round(max(0.0, precip), 2)`). -/
theorem precipitation_round_two :
    ∀ (q : ℚ) (s : String) (b : PrecipBody),
      predict_precip (some q) s = .success b →
      b.precipitation_fall = pyRound2 (max 0 q) := by
  intro q s b h
  cases hp : parseDate s with
  | none => simp [predict_precip, hp] at h
  | some d =>
    simp only [predict_precip, hp] at h
    cases h1 : addDays d 1 <;> cases h3 : addDays d 3 <;> simp [h1, h3] at h
    subst h
    rfl

unseal Rat.mul Rat.inv Rat.add Rat.sub Rat.ofScientific in
/-- Witness for claim C10: regressor output 1.234 is clamped (a no-op here)
and rounded to 1.23. -/
theorem precipitation_round_two_witness :
    predict_precip (some (1234/1000)) "2024-05-10" =
      .success ⟨"2024-05-10", "2024-05-11", "2024-05-13", 123/100⟩ ∧
    (PrecipBody.mk "2024-05-10" "2024-05-11" "2024-05-13"
      (123/100)).precipitation_fall = pyRound2 (max 0 (1234/1000)) :=
  ⟨by decide, precipitation_round_two (1234/1000) "2024-05-10" _ (by decide)⟩
